import Mathlib

/- Shallow embedding of the AirGradient-InfluxDB firmware
(src/src/main.cpp with src/src/config.h in force). Arduino float values are
modelled as exact rationals, C strings as Lean strings, and the blocking
calls the firmware makes (delays, sensor reads, display updates, serial
logging, the InfluxDB write, the WiFi provisioning calls) as an explicit
trace of effects produced by each cycle. -/

namespace AirGradient

/-- Arduino String expressions as they appear in display calls, kept
symbolic: a literal, the decimal rendering of an int, the rendering of a
float, or a concatenation. -/
inductive Txt where
  | lit (s : String)
  | ofInt (n : Int)
  | ofQ (q : ℚ)
  | cat (a b : Txt)
deriving DecidableEq, Repr

/-- Observable effect of one blocking call made by the firmware. -/
inductive Effect where
  | delay (ms : Nat)
  | readPM
  | readCO2
  | readSHT
  | disp (ln1 ln2 : Txt) (small : Bool)
  | writePoint
  | serial (s : String)
  | autoConnect
  | setAutoReconnect
  | setRestorePersistent
  | restart
deriving DecidableEq, Repr

/-- Recognizer for delay effects. -/
def Effect.isDelay : Effect → Bool
  | .delay _ => true
  | _ => false

/-- A time-series point of the InfluxDB client library: measurement name,
tag mapping and field mapping. Field values are numeric; floats are
modelled as exact rationals. -/
structure Point where
  measurement : String
  tags : List (String × String)
  fields : List (String × ℚ)
deriving DecidableEq, Repr

/-- The shared point constructed as Point("airgradient") at
src/src/main.cpp line 92. -/
def Point.airgradient : Point := ⟨"airgradient", [], []⟩

/-- Point::addTag of the client library: appends a tag, fields untouched. -/
def Point.addTag (p : Point) (k v : String) : Point :=
  { p with tags := p.tags ++ [(k, v)] }

/-- Point::addField of the client library: appends a field, tags untouched. -/
def Point.addField (p : Point) (k : String) (v : ℚ) : Point :=
  { p with fields := p.fields ++ [(k, v)] }

/-- Point::clearFields of the client library: drops all fields, keeps
measurement and tags. -/
def Point.clearFields (p : Point) : Point :=
  { p with fields := [] }

/-- The set of field keys currently on a point, in insertion order. -/
def Point.fieldKeys (p : Point) : List String :=
  p.fields.map Prod.fst

/-- DeviceConfig_t from src/src/main.cpp lines 97-101: a 32-byte name
buffer (at most 31 characters plus the NUL terminator) and a sample
delay. -/
structure DeviceConfig where
  deviceName : String
  sampleDelay : Int
deriving DecidableEq, Repr

/-- The global deviceConfig (src/src/main.cpp line 110) has static storage
duration, so before loadConfig runs it is zero-initialized: empty name
buffer and zero delay. -/
def DeviceConfig.boot : DeviceConfig := ⟨"", 0⟩

/-- Connection state of the InfluxDBClient as set by setConnectionParams
and setInsecure. -/
structure InfluxClient where
  url : String
  org : String
  bucket : String
  token : String
  insecure : Bool
deriving DecidableEq, Repr

/-- The default-constructed client of src/src/main.cpp line 108: empty
connection parameters. -/
def InfluxClient.booted : InfluxClient := ⟨"", "", "", "", false⟩

/-- The shape of config.json as loadConfig reads it through ArduinoJson:
a lookup of a missing key yields null (modelled with Option). -/
structure JsonDoc where
  url : Option String
  token : Option String
  org : Option String
  bucket : Option String
  device_name : Option String
  sample_delay : Option Int
deriving DecidableEq, Repr

/-- Outcome of LittleFS.open plus deserializeJson inside loadConfig: the
file may fail to open, fail to parse (carrying the parser message from
error.c_str()), or parse to a document. -/
inductive ConfigFile where
  | missing
  | malformed (err : String)
  | parsed (doc : JsonDoc)
deriving DecidableEq, Repr

/-- State after a loadConfig call: its boolean return value, the client
connection state, the global deviceConfig, and the serial log lines the
call printed. -/
structure LoadResult where
  ok : Bool
  client : InfluxClient
  cfg : DeviceConfig
  logs : List String
deriving DecidableEq, Repr

/-- strlcpy(dst, src, 32) copies at most 31 bytes of src into dst and
always NUL-terminates; characters are modelled one byte each. -/
def strlcpy32 (src : String) : String := src.take 31

/-- loadConfig from src/src/main.cpp lines 222-274, with config.h in
force: USE_IRSG_ROOT_CERT is defined, so the certificate branch runs and
calls setInsecure(false); ENABLE_CONNECTION_REUSE is not defined. On an
open or parse failure the function logs and returns false before touching
the client or deviceConfig. A null influx_db string becomes an empty
Arduino String inside setConnectionParams. -/
def loadConfig (file : ConfigFile) (client : InfluxClient) (cfg : DeviceConfig) : LoadResult :=
  match file with
  | .missing => ⟨false, client, cfg, ["Failed to open config file"]⟩
  | .malformed err => ⟨false, client, cfg, ["Failed to parse config file", err]⟩
  | .parsed doc =>
    let client1 : InfluxClient :=
      { url := doc.url.getD "", org := doc.org.getD "", bucket := doc.bucket.getD "",
        token := doc.token.getD "", insecure := false }
    let sampleDelay := doc.sample_delay.getD 10000
    let deviceName :=
      match doc.device_name with
      | some n => strlcpy32 n
      | none => "unknown_device"
    ⟨true, client1, ⟨deviceName, sampleDelay⟩,
      ["Set InfluxDB Client to use certificate validation",
       "Device Name: " ++ deviceName]⟩

/-- DEVICE is "ESP8266" for this firmware (ESP8266 build, src/src/main.cpp
lines 54-58). -/
def DEVICE : String := "ESP8266"

/-- The wl_status_t value WL_CONNECTED of the ESP8266 Arduino core, which
wifiMulti.run() returns while the radio is associated. -/
def WL_CONNECTED : Nat := 3

/-- Module-level mutable state that loop() reads: the sensor-enable flags
(src/src/main.cpp lines 88-90), the shared point (line 92) and the loaded
configuration (line 110). -/
structure Globals where
  hasPM : Bool
  hasCO2 : Bool
  hasSHT : Bool
  sensor : Point
  deviceConfig : DeviceConfig
deriving DecidableEq, Repr

/-- The values the environment supplies to one loop() iteration: the radio
status from wifiMulti.run(), the raw reads of the three sensors, the
current WiFi.RSSI(), and whether client.writePoint succeeds. -/
structure Env where
  wifiStatus : Nat
  pm2 : Int
  co2 : Int
  sht_t : ℚ
  sht_rh : ℚ
  rssi : Int
  writeOk : Bool
deriving DecidableEq, Repr

/-- The particulate block of loop(), src/src/main.cpp lines 174-186: read
PM2, add the field and show it when PM2 >= 0, otherwise show "error", then
delay 3000 ms. -/
def pmStep (hasPM : Bool) (pm2 : Int) (s : Point) : Point × List Effect :=
  if hasPM then
    if 0 ≤ pm2 then
      (s.addField "pm2.5" (pm2 : ℚ),
       [.readPM, .disp (.lit "PM2") (.ofInt pm2) false, .delay 3000])
    else
      (s, [.readPM, .disp (.lit "PM2") (.lit "error") false, .delay 3000])
  else (s, [])

/-- The CO2 block of loop(), src/src/main.cpp lines 188-199: read CO2, add
the field and show it when CO2 > 0, otherwise show "error", then delay
3000 ms. -/
def co2Step (hasCO2 : Bool) (co2 : Int) (s : Point) : Point × List Effect :=
  if hasCO2 then
    if 0 < co2 then
      (s.addField "co2" (co2 : ℚ),
       [.readCO2, .disp (.lit "CO2") (.ofInt co2) false, .delay 3000])
    else
      (s, [.readCO2, .disp (.lit "CO2") (.lit "error") false, .delay 3000])
  else (s, [])

/-- The temperature/humidity block of loop(), src/src/main.cpp lines
201-210: fetch the reading, compute temp_f = (t * 1.8f) + 32, add the
temp_c, temp_f and humidity fields unconditionally, show the values, then
delay 3000 ms. -/
def shtStep (hasSHT : Bool) (t rh : ℚ) (s : Point) : Point × List Effect :=
  if hasSHT then
    let temp_f := t * 1.8 + 32
    (((s.addField "temp_c" t).addField "temp_f" temp_f).addField "humidity" rh,
     [.readSHT, .disp (.ofQ temp_f) (.cat (.ofQ rh) (.lit "%")) false, .delay 3000])
  else (s, [])

/-- The tail of loop(), src/src/main.cpp lines 212-219: add the rssi field
unconditionally, write the point, and log the error message when the
write fails. -/
def publishStep (rssi : Int) (writeOk : Bool) (s : Point) : Point × List Effect :=
  (s.addField "rssi" (rssi : ℚ),
   [.writePoint] ++ if writeOk then [] else [.serial "InfluxDB write failed: "])

/-- loop from src/src/main.cpp lines 163-220: when wifiMulti.run() is not
WL_CONNECTED, delay 500 ms and return; otherwise clear the fields of the
shared point and run the four blocks in source order. The returned pair is
the module state after the iteration and the effect trace of the
iteration; the point held in the returned state is the point that
writePoint published. -/
def loop (g : Globals) (env : Env) : Globals × List Effect :=
  if env.wifiStatus ≠ WL_CONNECTED then (g, [.delay 500])
  else
    let p1 := pmStep g.hasPM env.pm2 g.sensor.clearFields
    let p2 := co2Step g.hasCO2 env.co2 p1.1
    let p3 := shtStep g.hasSHT env.sht_t env.sht_rh p2.1
    let p4 := publishStep env.rssi env.writeOk p3.1
    ({ g with sensor := p4.1 }, p1.2 ++ p2.2 ++ p3.2 ++ p4.2)

/-- The three addTag calls of setup(), src/src/main.cpp lines 146-148,
performed once at boot after loadConfig. -/
def setupTags (deviceId : String) (cfg : DeviceConfig) (p : Point) : Point :=
  ((p.addTag "device" DEVICE).addTag "id" deviceId).addTag "deviceName" cfg.deviceName

/-- connectToWifi from src/src/main.cpp lines 291-305, as the effect trace
of one call given whether wifiManager.autoConnect() succeeds within its
120-second timeout. ESP.restart() reboots the device and never returns,
so on the failure branch the trace ends at the restart: the delay(5000)
written after it and the two wifiManager calls after the if-block are
unreachable on that branch. -/
def connectToWifi (autoConnectOk : Bool) : List Effect :=
  if autoConnectOk then
    [.autoConnect, .setAutoReconnect, .setRestorePersistent]
  else
    [.autoConnect, .serial "failed to connect and hit timeout", .delay 3000, .restart]

/- Concrete module states and environments used by the witness theorems. -/

/-- An example module state: all three sensors enabled, the shared point
carrying its boot-time tags and a leftover field from an earlier cycle. -/
def gEx : Globals :=
  ⟨true, true, true,
   ⟨"airgradient", [("device", "ESP8266"), ("id", "a1b2c3"), ("deviceName", "room1")],
    [("co2", 600)]⟩,
   ⟨"room1", 10000⟩⟩

/-- A connected cycle with an invalid particulate read (-1), a valid CO2
read, t = 21.5, rh = 40, rssi = -67, and a successful write. -/
def envEx : Env := ⟨3, -1, 800, 43 / 2, 40, -67, true⟩

/-- A connected cycle whose writePoint call fails. -/
def envFail : Env := ⟨3, 7, 800, 43 / 2, 40, -67, false⟩

/-- A cycle during which wifiMulti.run() reports a status other than
WL_CONNECTED. -/
def envDisc : Env := ⟨1, 7, 800, 43 / 2, 40, -67, true⟩

/- Helper lemmas shared by the claim theorems. -/

@[simp] theorem addField_tags (p : Point) (k : String) (v : ℚ) :
    (p.addField k v).tags = p.tags := rfl

@[simp] theorem clearFields_tags (p : Point) :
    (Point.clearFields p).tags = p.tags := rfl

@[simp] theorem addField_fields (p : Point) (k : String) (v : ℚ) :
    (p.addField k v).fields = p.fields ++ [(k, v)] := rfl

@[simp] theorem clearFields_fields (p : Point) :
    (Point.clearFields p).fields = [] := rfl

theorem pmStep_fst_fields (h : Bool) (p : Int) (s : Point) :
    ((pmStep h p s).1).fields =
      s.fields ++ (if h = true ∧ 0 ≤ p then [("pm2.5", (p : ℚ))] else []) := by
  cases h <;> simp [pmStep] <;> split_ifs <;> simp_all

theorem co2Step_fst_fields (h : Bool) (c : Int) (s : Point) :
    ((co2Step h c s).1).fields =
      s.fields ++ (if h = true ∧ 0 < c then [("co2", (c : ℚ))] else []) := by
  cases h <;> simp [co2Step] <;> split_ifs <;> simp_all

theorem shtStep_fst_fields (h : Bool) (t rh : ℚ) (s : Point) :
    ((shtStep h t rh s).1).fields =
      s.fields ++ (if h = true then
        [("temp_c", t), ("temp_f", t * 1.8 + 32), ("humidity", rh)] else []) := by
  cases h <;> simp [shtStep]

theorem publishStep_fst_fields (r : Int) (w : Bool) (s : Point) :
    ((publishStep r w s).1).fields = s.fields ++ [("rssi", (r : ℚ))] := by
  simp [publishStep]

@[simp] theorem pmStep_fst_tags (h : Bool) (p : Int) (s : Point) :
    ((pmStep h p s).1).tags = s.tags := by
  cases h <;> simp [pmStep] <;> split_ifs <;> simp

@[simp] theorem co2Step_fst_tags (h : Bool) (c : Int) (s : Point) :
    ((co2Step h c s).1).tags = s.tags := by
  cases h <;> simp [co2Step] <;> split_ifs <;> simp

@[simp] theorem shtStep_fst_tags (h : Bool) (t rh : ℚ) (s : Point) :
    ((shtStep h t rh s).1).tags = s.tags := by
  cases h <;> simp [shtStep]

@[simp] theorem publishStep_fst_tags (r : Int) (w : Bool) (s : Point) :
    ((publishStep r w s).1).tags = s.tags := by
  simp [publishStep]

/-- In a connected cycle, the fields of the published point, split by
source block. -/
theorem loop_fields_split (g : Globals) (env : Env)
    (h : env.wifiStatus = WL_CONNECTED) :
    ((loop g env).1.sensor).fields =
      (if g.hasPM = true ∧ 0 ≤ env.pm2 then [("pm2.5", (env.pm2 : ℚ))] else []) ++
      (if g.hasCO2 = true ∧ 0 < env.co2 then [("co2", (env.co2 : ℚ))] else []) ++
      (if g.hasSHT = true then
        [("temp_c", env.sht_t), ("temp_f", env.sht_t * 1.8 + 32),
         ("humidity", env.sht_rh)] else []) ++
      [("rssi", (env.rssi : ℚ))] := by
  simp only [loop, h, ne_eq, not_true_eq_false, if_false, ite_false,
    publishStep_fst_fields, shtStep_fst_fields, co2Step_fst_fields,
    pmStep_fst_fields, clearFields_fields, List.nil_append, List.append_assoc]

/-- C5: in every cycle in which the radio reports a status other than
WL_CONNECTED, loop performs no sensor read, no field population, no
display update and no publish: it delays 500 ms and returns with the
module state unchanged. -/
theorem loop_disconnected_skips (g : Globals) (env : Env)
    (h : env.wifiStatus ≠ WL_CONNECTED) :
    loop g env = (g, [Effect.delay 500]) := by
  simp [loop, h]

/-- Witness for loop_disconnected_skips: a concrete disconnected cycle. -/
theorem loop_disconnected_skips_witness :
    loop gEx envDisc = (gEx, [Effect.delay 500]) :=
  loop_disconnected_skips gEx envDisc (by decide)

/-- C6: in a connected cycle with the SHT sensor enabled, the published
point carries temp_c with the raw reading and temp_f with exactly
temp_c * 1.8 + 32, as independent fields of the same point. -/
theorem temp_f_conversion (g : Globals) (env : Env)
    (hw : env.wifiStatus = WL_CONNECTED) (hs : g.hasSHT = true) :
    ("temp_c", env.sht_t) ∈ ((loop g env).1.sensor).fields ∧
    ("temp_f", env.sht_t * 1.8 + 32) ∈ ((loop g env).1.sensor).fields := by
  rw [loop_fields_split g env hw]
  constructor <;> simp [hs]

/-- Witness for temp_f_conversion: the cycle with t = 21.5 publishes
temp_c = 21.5 and temp_f = 21.5 * 1.8 + 32. -/
theorem temp_f_conversion_witness :
    ("temp_c", (43 / 2 : ℚ)) ∈ ((loop gEx envEx).1.sensor).fields ∧
    ("temp_f", (43 / 2 : ℚ) * 1.8 + 32) ∈ ((loop gEx envEx).1.sensor).fields :=
  temp_f_conversion gEx envEx (by decide) (by decide)

/-- C8: the point's tags are attached exactly once at boot by setup and
are never modified afterwards: a loop iteration leaves the tag mapping of
the shared point unchanged, clearFields touches only fields, and
setupTags appends exactly the device class, device id and configured
device name. -/
theorem tags_static_after_boot (g : Globals) (env : Env) (p : Point)
    (deviceId : String) (cfg : DeviceConfig) :
    ((loop g env).1.sensor).tags = g.sensor.tags ∧
    (Point.clearFields p).tags = p.tags ∧
    (setupTags deviceId cfg p).tags =
      p.tags ++ [("device", DEVICE), ("id", deviceId), ("deviceName", cfg.deviceName)] := by
  refine ⟨?_, rfl, by simp [setupTags, Point.addTag]⟩
  unfold loop
  split
  · rfl
  · simp

/-- C1: for every cycle executed while connected, the published point's
field keys are exactly those of valid readings of enabled sensors plus
rssi: pm2.5 iff the particulate sensor is enabled and its reading is
at least 0, co2 iff the CO2 sensor is enabled and its reading is above 0,
temp_c, temp_f and humidity iff the SHT sensor is enabled, and rssi
always; in particular a particulate reading of -1 leaves pm2.5 entirely
absent. -/
theorem loop_connected_field_set (g : Globals) (env : Env)
    (h : env.wifiStatus = WL_CONNECTED) :
    ((loop g env).1.sensor).fieldKeys =
      (if g.hasPM = true ∧ 0 ≤ env.pm2 then ["pm2.5"] else []) ++
      (if g.hasCO2 = true ∧ 0 < env.co2 then ["co2"] else []) ++
      (if g.hasSHT = true then ["temp_c", "temp_f", "humidity"] else []) ++
      ["rssi"] ∧
    ("pm2.5" ∈ ((loop g env).1.sensor).fieldKeys ↔ g.hasPM = true ∧ 0 ≤ env.pm2) ∧
    ("co2" ∈ ((loop g env).1.sensor).fieldKeys ↔ g.hasCO2 = true ∧ 0 < env.co2) ∧
    ("temp_c" ∈ ((loop g env).1.sensor).fieldKeys ↔ g.hasSHT = true) ∧
    ("temp_f" ∈ ((loop g env).1.sensor).fieldKeys ↔ g.hasSHT = true) ∧
    ("humidity" ∈ ((loop g env).1.sensor).fieldKeys ↔ g.hasSHT = true) ∧
    "rssi" ∈ ((loop g env).1.sensor).fieldKeys ∧
    (env.pm2 = -1 → "pm2.5" ∉ ((loop g env).1.sensor).fieldKeys) := by
  have hk : ((loop g env).1.sensor).fieldKeys =
      (if g.hasPM = true ∧ 0 ≤ env.pm2 then ["pm2.5"] else []) ++
      (if g.hasCO2 = true ∧ 0 < env.co2 then ["co2"] else []) ++
      (if g.hasSHT = true then ["temp_c", "temp_f", "humidity"] else []) ++
      ["rssi"] := by
    have hf := loop_fields_split g env h
    simp only [Point.fieldKeys, hf]
    by_cases h1 : g.hasPM = true ∧ 0 ≤ env.pm2 <;>
      by_cases h2 : g.hasCO2 = true ∧ 0 < env.co2 <;>
        by_cases h3 : g.hasSHT = true <;>
          simp [h1, h2, h3]
  refine ⟨hk, ?_, ?_, ?_, ?_, ?_, ?_, ?_⟩ <;> rw [hk] <;>
    by_cases h1 : g.hasPM = true ∧ 0 ≤ env.pm2 <;>
      by_cases h2 : g.hasCO2 = true ∧ 0 < env.co2 <;>
        by_cases h3 : g.hasSHT = true <;>
          simp_all

/-- Witness for loop_connected_field_set: in the concrete connected cycle
with particulate reading -1, valid CO2, and the SHT sensor enabled, the
published field keys are exactly co2, temp_c, temp_f, humidity, rssi and
pm2.5 is entirely absent. -/
theorem loop_connected_field_set_witness :
    ((loop gEx envEx).1.sensor).fieldKeys =
      ["co2", "temp_c", "temp_f", "humidity", "rssi"] ∧
    "pm2.5" ∉ ((loop gEx envEx).1.sensor).fieldKeys := by
  have hc := loop_connected_field_set gEx envEx (by decide)
  refine ⟨?_, hc.2.2.2.2.2.2.2 (by decide)⟩
  rw [hc.1]
  decide

/-- A loop iteration reads nothing of deviceConfig: replacing it changes
neither the published point nor the effect trace. -/
theorem loop_deviceConfig_irrelevant (g : Globals) (cfg : DeviceConfig) (env : Env) :
    (loop { g with deviceConfig := cfg } env).1.sensor = (loop g env).1.sensor ∧
    (loop { g with deviceConfig := cfg } env).2 = (loop g env).2 := by
  by_cases h : env.wifiStatus ≠ WL_CONNECTED <;> simp [loop, h]

/-- Delays of the particulate block: one 3000 ms delay iff enabled. -/
theorem pmStep_delays (h : Bool) (p : Int) (s : Point) :
    (pmStep h p s).2.filter Effect.isDelay =
      (if h = true then [Effect.delay 3000] else []) := by
  cases h <;> simp [pmStep] <;> split_ifs <;> rfl

/-- Delays of the CO2 block: one 3000 ms delay iff enabled. -/
theorem co2Step_delays (h : Bool) (c : Int) (s : Point) :
    (co2Step h c s).2.filter Effect.isDelay =
      (if h = true then [Effect.delay 3000] else []) := by
  cases h <;> simp [co2Step] <;> split_ifs <;> rfl

/-- Delays of the SHT block: one 3000 ms delay iff enabled. -/
theorem shtStep_delays (h : Bool) (t rh : ℚ) (s : Point) :
    (shtStep h t rh s).2.filter Effect.isDelay =
      (if h = true then [Effect.delay 3000] else []) := by
  cases h <;> simp [shtStep, Effect.isDelay]

/-- The publish block performs no delay. -/
theorem publishStep_delays (r : Int) (w : Bool) (s : Point) :
    (publishStep r w s).2.filter Effect.isDelay = [] := by
  cases w <;> simp [publishStep, Effect.isDelay]

/-- C9: the loaded sample_delay value has no effect on observable
behavior: two module states differing only in the stored sampleDelay
produce the same published point and the same effect trace in every
cycle, and the delays a cycle performs are fixed — one 3000 ms delay per
enabled sensor when connected and a single 500 ms delay when
disconnected. -/
theorem sampleDelay_unobservable (g : Globals) (env : Env) (d1 d2 : Int) :
    (loop { g with deviceConfig := { g.deviceConfig with sampleDelay := d1 } } env).1.sensor =
      (loop { g with deviceConfig := { g.deviceConfig with sampleDelay := d2 } } env).1.sensor ∧
    (loop { g with deviceConfig := { g.deviceConfig with sampleDelay := d1 } } env).2 =
      (loop { g with deviceConfig := { g.deviceConfig with sampleDelay := d2 } } env).2 ∧
    (loop g env).2.filter Effect.isDelay =
      (if env.wifiStatus = WL_CONNECTED then
        (if g.hasPM = true then [Effect.delay 3000] else []) ++
        (if g.hasCO2 = true then [Effect.delay 3000] else []) ++
        (if g.hasSHT = true then [Effect.delay 3000] else [])
      else [Effect.delay 500]) := by
  refine ⟨?_, ?_, ?_⟩
  · exact ((loop_deviceConfig_irrelevant g { g.deviceConfig with sampleDelay := d1 } env).1).trans
      ((loop_deviceConfig_irrelevant g { g.deviceConfig with sampleDelay := d2 } env).1).symm
  · exact ((loop_deviceConfig_irrelevant g { g.deviceConfig with sampleDelay := d1 } env).2).trans
      ((loop_deviceConfig_irrelevant g { g.deviceConfig with sampleDelay := d2 } env).2).symm
  · by_cases h : env.wifiStatus = WL_CONNECTED <;>
      simp [loop, h, pmStep_delays, co2Step_delays, shtStep_delays,
        publishStep_delays, Effect.isDelay]

/-- C4: a writePoint failure never halts the loop. The published fields
of a connected cycle do not depend on the fields the shared point carried
before the cycle (the cycle starts from clearFields, so nothing carries
over into the next cycle's point), the resulting module state is the same
whether the write succeeded or failed (the point is dropped, no retry),
and a failed write in a connected cycle logs the error message. -/
theorem writePoint_failure_never_halts (g : Globals) (env : Env)
    (f : List (String × ℚ)) :
    (env.wifiStatus = WL_CONNECTED →
      ((loop { g with sensor := { g.sensor with fields := f } } env).1.sensor).fields =
        ((loop g env).1.sensor).fields) ∧
    (loop g { env with writeOk := false }).1 = (loop g { env with writeOk := true }).1 ∧
    (env.wifiStatus = WL_CONNECTED → env.writeOk = false →
      Effect.serial "InfluxDB write failed: " ∈ (loop g env).2) := by
  refine ⟨fun h => ?_, ?_, fun h hw => ?_⟩
  · rw [loop_fields_split _ env h, loop_fields_split g env h]
  · by_cases h : env.wifiStatus ≠ WL_CONNECTED <;> simp [loop, h, publishStep]
  · simp [loop, h, hw, publishStep]

/-- Witness for writePoint_failure_never_halts: the concrete failed-write
cycle logs the write error. -/
theorem writePoint_failure_never_halts_witness :
    Effect.serial "InfluxDB write failed: " ∈ (loop gEx envFail).2 :=
  (writePoint_failure_never_halts gEx envFail []).2.2 (by decide) (by decide)

/-- C2 counterexample: after a failed load (missing file) against the
boot-time state, the stored deviceName is not "unknown_device" and the
stored sampleDelay is not 10000 — loadConfig returns before the
default-applying code runs, so the zero-initialized globals remain. -/
theorem loadConfig_failure_defaults_cex :
    ¬ ((loadConfig ConfigFile.missing InfluxClient.booted DeviceConfig.boot).cfg.deviceName
          = "unknown_device" ∧
       (loadConfig ConfigFile.missing InfluxClient.booted DeviceConfig.boot).cfg.sampleDelay
          = 10000) := by
  decide

/-- C2 amended: a failed load (missing file or malformed document) is
logged and loadConfig returns false leaving the client and the global
deviceConfig untouched; with the boot-time zero-initialized state this
means the device proceeds with an empty deviceName, sampleDelay 0 and
empty connection parameters — not with the documented defaults, which are
applied only on a successful parse. -/
theorem loadConfig_failure_keeps_state (c : InfluxClient) (d : DeviceConfig) (e : String) :
    loadConfig ConfigFile.missing c d = ⟨false, c, d, ["Failed to open config file"]⟩ ∧
    loadConfig (ConfigFile.malformed e) c d =
      ⟨false, c, d, ["Failed to parse config file", e]⟩ ∧
    (loadConfig ConfigFile.missing InfluxClient.booted DeviceConfig.boot).cfg = ⟨"", 0⟩ ∧
    (loadConfig ConfigFile.missing InfluxClient.booted DeviceConfig.boot).client =
      InfluxClient.booted :=
  ⟨rfl, rfl, rfl, rfl⟩

/-- C3: a document carrying influx_db values but neither device_name nor
sample_delay loads successfully and yields the documented defaults, and
the fully populated example document loads to the documented
DeviceConfig and connection parameters. -/
theorem loadConfig_documented_examples :
    (loadConfig (ConfigFile.parsed ⟨some "", some "", some "", some "", none, none⟩)
        InfluxClient.booted DeviceConfig.boot).ok = true ∧
    (loadConfig (ConfigFile.parsed ⟨some "", some "", some "", some "", none, none⟩)
        InfluxClient.booted DeviceConfig.boot).cfg = ⟨"unknown_device", 10000⟩ ∧
    (loadConfig
        (ConfigFile.parsed ⟨some "http://x", some "t", some "o", some "b", some "room1", some 5000⟩)
        InfluxClient.booted DeviceConfig.boot).ok = true ∧
    (loadConfig
        (ConfigFile.parsed ⟨some "http://x", some "t", some "o", some "b", some "room1", some 5000⟩)
        InfluxClient.booted DeviceConfig.boot).cfg = ⟨"room1", 5000⟩ ∧
    (loadConfig
        (ConfigFile.parsed ⟨some "http://x", some "t", some "o", some "b", some "room1", some 5000⟩)
        InfluxClient.booted DeviceConfig.boot).client = ⟨"http://x", "o", "b", "t", false⟩ := by
  set_option maxRecDepth 4000 in
  refine ⟨rfl, ?_, rfl, ?_, rfl⟩ <;> decide

/-- C7: when boot-time provisioning fails to connect within its timeout,
exactly one restart invocation occurs and it is the last effect of the
call — execution never continues past it into the sampling loop — while a
successful provisioning performs no restart. -/
theorem provisioning_timeout_restarts :
    (connectToWifi false).count Effect.restart = 1 ∧
    (connectToWifi false).getLast? = some Effect.restart ∧
    (connectToWifi true).count Effect.restart = 0 := by
  decide

/-- An example parsed document used by the truncation witness. -/
def docEx : JsonDoc := ⟨some "http://x", some "t", some "o", some "b", none, none⟩

set_option maxRecDepth 8000 in
/-- C10: for every configured device_name, the stored deviceName is the
prefix of at most 31 characters of the configured value — strlcpy with a
32-byte buffer keeps 31 characters — and a name of at most 31 characters
is stored verbatim. -/
theorem deviceName_truncation (doc : JsonDoc) (name : String)
    (c : InfluxClient) (d : DeviceConfig) :
    (loadConfig (ConfigFile.parsed { doc with device_name := some name }) c d).cfg.deviceName
        = name.take 31 ∧
    (name.length ≤ 31 →
      (loadConfig (ConfigFile.parsed { doc with device_name := some name }) c d).cfg.deviceName
        = name) := by
  have h1 : (loadConfig (ConfigFile.parsed { doc with device_name := some name }) c d).cfg.deviceName
      = name.take 31 := by
    simp [loadConfig, strlcpy32]
  refine ⟨h1, fun hle => ?_⟩
  rw [h1, String.take_eq, List.take_of_length_le hle]

/-- Witness for deviceName_truncation: the 5-character name "room1" is
stored verbatim. -/
theorem deviceName_truncation_witness :
    (loadConfig (ConfigFile.parsed { docEx with device_name := some "room1" })
        InfluxClient.booted DeviceConfig.boot).cfg.deviceName = "room1" :=
  (deviceName_truncation docEx "room1" InfluxClient.booted DeviceConfig.boot).2 (by decide)

end AirGradient
